import Mathlib

/-!
Verification of the `SUVIClient` data-retrieval client
(`sunpy/net/dataretriever/sources/goes.py`) against its design
specification. The Python client is shallowly embedded: pure helper
functions become Lean functions, the fan-out loops of `search` become
structural recursion over lists in the `Except` monad (the `raise`
for an unsupported level becomes `Except.error`), and the external
directory-listing capability becomes a function parameter.
-/

set_option autoImplicit false

namespace SUVI

/-- Calendar timestamp with second precision, standing for a Python
`datetime.datetime` value. -/
structure DateTime where
  year : Nat
  month : Nat
  day : Nat
  hour : Nat
  minute : Nat
  second : Nat
deriving DecidableEq, Repr

/-- Wavelength units handled by the embedding of the unit-conversion
collaborator (`astropy.units`). -/
inductive WUnit where
  | angstrom
  | nanometer
  | micrometer
deriving DecidableEq, Repr

/-- Angstroms per one of the given unit, as an exact rational factor. -/
def WUnit.factor : WUnit → ℚ
  | .angstrom => 1
  | .nanometer => 10
  | .micrometer => 10000

/-- A physical quantity: a numeric value together with its unit. -/
structure Quantity where
  value : ℚ
  unit : WUnit
deriving DecidableEq, Repr

/-- Conversion to angstrom: the embedding of
`q.to(u.Angstrom, equivalencies=u.spectral())` restricted to length
units, where the spectral equivalencies reduce to an exact linear factor. -/
def Quantity.toAngstrom (q : Quantity) : ℚ := q.value * q.unit.factor

/-- One field map produced by a successful filename match. The level-1b
grammar (`pattern1b`) exposes one shared leading date plus two distinct
hour-minute-second groups and no end date, so `eyear`, `emonth`, `eday`
are `none` for its field maps; the level-2 grammar (`pattern2`) additionally
exposes a full end date in those three fields. -/
structure RawMatch where
  SatelliteNumber : Nat
  Level : String
  Wavelength : Nat
  year : Nat
  month : Nat
  day : Nat
  hour : Nat
  minute : Nat
  second : Nat
  ehour : Nat
  eminute : Nat
  esecond : Nat
  eyear : Option Nat
  emonth : Option Nat
  eday : Option Nat
deriving DecidableEq, Repr

/-- The `matchdict` assembled by `pre_search_hook`: the per-client constant
metadata (first registered value of each attribute), the resolved axis
enumerations, and the query's time span. -/
structure MatchDict where
  Instrument : String
  Physobs : String
  Source : String
  Provider : String
  SatelliteNumber : List Nat
  Level : List String
  Wavelength : Option (Quantity × Quantity)
  Time : DateTime × DateTime
deriving DecidableEq, Repr

/-- A value stored in the ordered field map that `post_search_hook` returns. -/
inductive FieldValue where
  | range (s e : DateTime)
  | time (t : DateTime)
  | str (s : String)
  | nat (n : Nat)
  | quantity (v : Nat) (u : WUnit)
deriving DecidableEq, Repr

/-- Start instant assembled by `post_search_hook`:
`datetime(i.year, i.month, i.day, i.hour, i.minute, i.second)`. -/
def startOf (i : RawMatch) : DateTime :=
  ⟨i.year, i.month, i.day, i.hour, i.minute, i.second⟩

/-- End instant assembled by `post_search_hook`:
`datetime(i.year, i.month, i.day, i.ehour, i.eminute, i.esecond)`. The
start date fields are reused for the end instant; the captured `eyear`,
`emonth`, `eday` fields are never read. -/
def endOf (i : RawMatch) : DateTime :=
  ⟨i.year, i.month, i.day, i.ehour, i.eminute, i.esecond⟩

/-- The end instant actually encoded in the matched filename, stated from
the spec for comparison with `endOf`: when the grammar exposes a full end
date, that end date carries the end time group; otherwise the shared
leading date does. -/
def specEndInstant (i : RawMatch) : DateTime :=
  match i.eyear, i.emonth, i.eday with
  | some ey, some em, some ed => ⟨ey, em, ed, i.ehour, i.eminute, i.esecond⟩
  | _, _, _ => ⟨i.year, i.month, i.day, i.ehour, i.eminute, i.esecond⟩

/-- `SUVIClient.post_search_hook`: the ordered field map built from one raw
match plus the query's constant metadata. Start Time and End Time are kept
as instants; the source only formats them through the configured time
format string. -/
def post_search_hook (i : RawMatch) (matchdict : MatchDict) :
    List (String × FieldValue) :=
  [ ("Time", .range (startOf i) (endOf i)),
    ("Start Time", .time (startOf i)),
    ("End Time", .time (endOf i)),
    ("Instrument", .str matchdict.Instrument),
    ("Phsyobs", .str matchdict.Physobs),
    ("Source", .str matchdict.Source),
    ("Provider", .str matchdict.Provider),
    ("SatelliteNumber", .nat i.SatelliteNumber),
    ("Level", .str i.Level),
    ("Wavelength", .quantity i.Wavelength .angstrom) ]

/-- The six supported wavelengths of `search`, in angstrom. -/
def supported_waves : List Nat := [94, 131, 171, 195, 284, 304]

/-- Inclusive range containment applied to each supported wavelength after
both requested endpoints have been converted to angstrom. -/
def inReqRange (wmin wmax : ℚ) (w : Nat) : Bool :=
  decide (wmin ≤ (w : ℚ)) && decide ((w : ℚ) ≤ wmax)

/-- The wavelength fan-out list `all_waves` computed at the top of
`search`: absent constraint defaults to all six supported wavelengths,
otherwise the supported wavelengths inside the requested range after
conversion of both endpoints to angstrom. -/
def resolvedWaves (reqWave : Option (Quantity × Quantity)) : List Nat :=
  match reqWave with
  | none => supported_waves
  | some (qmin, qmax) =>
      supported_waves.filter (inReqRange qmin.toAngstrom qmax.toAngstrom)

/-- The element code substituted for level 1b: `fe`, overridden to `he`
for the 304 angstrom wavelength. -/
def elemCode (wave : Nat) : String := if wave = 304 then "he" else "fe"

/-- The `formdict` built inside the fan-out loop body: wavelength and
satellite number always, plus the element code exactly for level 1b.
`none` stands for the unsupported-level branch. -/
structure FormDict where
  wave : Nat
  SatelliteNumber : Nat
  elem : Option String
deriving DecidableEq, Repr

def formdictFor (level : String) (satno wave : Nat) : Option FormDict :=
  if level = "1b" then some ⟨wave, satno, some (elemCode wave)⟩
  else if level = "2" then some ⟨wave, satno, none⟩
  else none

/-- Zero-padded three-digit decimal rendering of the wavelength, as the
format specification on the wave placeholder requires. -/
def pad3 (n : Nat) : String :=
  if n < 10 then "00" ++ toString n
  else if n < 100 then "0" ++ toString n
  else toString n

/-- `baseurl1b` with the satellite number, element code and wavelength
substituted, exactly as `baseurl.format` produces it. -/
def baseurl1b_bound (satno wave : Nat) (elem : String) : String :=
  "https://data.ngdc.noaa.gov/platforms/solar-space-observing-satellites/goes/goes"
    ++ toString satno ++ "/l1b/suvi-l1b-" ++ elem ++ pad3 wave
    ++ "/%Y/%m/%d/OR_SUVI-L1b.*\\.fits.gz"

/-- `baseurl2` with the satellite number and wavelength substituted. -/
def baseurl2_bound (satno wave : Nat) : String :=
  "https://data.ngdc.noaa.gov/platforms/solar-space-observing-satellites/goes/goes"
    ++ toString satno ++ "/l2/data/suvi-l2-ci" ++ pad3 wave
    ++ "/%Y/%m/%d/dr_suvi-l2-ci" ++ pad3 wave ++ "_g" ++ toString satno
    ++ "_s%Y%m%dT%H%M%SZ_.*\\.fits"

/-- Which filename grammar is bound for the scrape. -/
inductive Pattern where
  | p1b
  | p2
deriving DecidableEq, Repr

/-- The branch-selection step of the loop body: choose skeleton and grammar
by level and format the skeleton from the formdict; `none` models the
`raise ValueError` branch for an unsupported level. -/
def selectBranch (level : String) (satno wave : Nat) : Option (String × Pattern) :=
  if level = "1b" then some (baseurl1b_bound satno wave (elemCode wave), .p1b)
  else if level = "2" then some (baseurl2_bound satno wave, .p2)
  else none

/-- Calendar unit (year, month, day) enumerated by the Directory Scraper. -/
abbrev CalUnit := Nat × Nat × Nat

/-- Result of one scrape. Modelled from the spec: the Directory Scraper
(`Scraper._extract_files_meta`, whose body is outside the embedded file)
returns the partial result set together with the calendar units whose
listing failed. -/
structure ScrapeResult where
  filesmeta : List RawMatch
  failedUnits : List CalUnit
deriving DecidableEq, Repr

/-- The outcome of a whole `search`: the normalized records in accumulation
order, the failed calendar units aggregated over all combinations, and one
entry per scraper invocation holding the urlpattern it was given (the
instrumentation needed to state how often the scraper runs). -/
structure SearchResult where
  records : List (List (String × FieldValue))
  failedUnits : List CalUnit
  invoked : List String
deriving DecidableEq, Repr

def emptyResult : SearchResult := ⟨[], [], []⟩

def SearchResult.append (r s : SearchResult) : SearchResult :=
  ⟨r.records ++ s.records, r.failedUnits ++ s.failedUnits, r.invoked ++ s.invoked⟩

/-- One execution of the innermost loop body of `search` for a concrete
(satellite, level, wavelength) combination: select the branch, raising for
an unsupported level, then scrape and normalize every raw match. -/
def comboStep (matchdict : MatchDict)
    (scrape : DateTime × DateTime → String → Pattern → ScrapeResult)
    (satno : Nat) (level : String) (wave : Nat) : Except String SearchResult :=
  match selectBranch level satno wave with
  | none => .error ("Level " ++ level ++ " is not supported.")
  | some (url, pat) =>
      let r := scrape matchdict.Time url pat
      .ok ⟨r.filesmeta.map (fun i => post_search_hook i matchdict),
           r.failedUnits, [url]⟩

/-- Sequential accumulation over one loop level: run the body left to
right, concatenating results; an error aborts and discards everything,
like the `raise` inside the Python loops. -/
def foldCombos {α : Type} (f : α → Except String SearchResult) :
    List α → Except String SearchResult
  | [] => .ok emptyResult
  | x :: xs => do
      let r ← f x
      let s ← foldCombos f xs
      pure (r.append s)

/-- The fan-out core of `search`: the triple loop over satellite numbers,
levels and resolved wavelengths. -/
def searchCore (matchdict : MatchDict)
    (scrape : DateTime × DateTime → String → Pattern → ScrapeResult)
    (satnos : List Nat) (levels : List String) (waves : List Nat) :
    Except String SearchResult :=
  foldCombos (fun satno =>
    foldCombos (fun level =>
      foldCombos (fun wave => comboStep matchdict scrape satno level wave)
        waves) levels) satnos

/-- `SUVIClient.search`, shallowly embedded: resolve the wavelength list,
fan out over the Cartesian product of the axis enumerations, and collect
the normalized records. The directory-listing capability is the `scrape`
parameter. -/
def search (matchdict : MatchDict)
    (scrape : DateTime × DateTime → String → Pattern → ScrapeResult) :
    Except String SearchResult :=
  searchCore matchdict scrape matchdict.SatelliteNumber matchdict.Level
    (resolvedWaves matchdict.Wavelength)

/-- Modelled from the spec: `Scraper._extract_files_meta`
(`sunpy/util/scraper.py`, whose body is outside the embedded file). It
walks the calendar units of the span in order; each unit's listing either
succeeds with entry names or fails; entries of successful units are
matched against the grammar, with `none` for a routine no-match; a
failing unit is collected and scraping continues with the remaining
units. -/
def extract_files_meta (units : List CalUnit)
    (listUnit : CalUnit → Option (List String))
    (parse : String → Option RawMatch) : ScrapeResult :=
  match units with
  | [] => ⟨[], []⟩
  | u :: us =>
      let rest := extract_files_meta us listUnit parse
      match listUnit u with
      | none => ⟨rest.filesmeta, u :: rest.failedUnits⟩
      | some entries => ⟨entries.filterMap parse ++ rest.filesmeta, rest.failedUnits⟩

/-- The URL skeleton bound for one supported combination, as a total
function of the level tag (meaningful when the level is `1b` or `2`). -/
def boundUrl (level : String) (satno wave : Nat) : String :=
  if level = "1b" then baseurl1b_bound satno wave (elemCode wave)
  else baseurl2_bound satno wave

/-- The filename grammar bound for one supported combination. -/
def boundPattern (level : String) : Pattern :=
  if level = "1b" then .p1b else .p2

/-- The loop-body outcome for one supported combination. -/
def comboResult (matchdict : MatchDict)
    (scrape : DateTime × DateTime → String → Pattern → ScrapeResult)
    (c : Nat × String × Nat) : SearchResult :=
  let url := boundUrl c.2.1 c.1 c.2.2
  let r := scrape matchdict.Time url (boundPattern c.2.1)
  ⟨r.filesmeta.map (fun i => post_search_hook i matchdict), r.failedUnits, [url]⟩

/-- The Cartesian product of the three axis enumerations, in loop order. -/
def combos (satnos : List Nat) (levels : List String) (waves : List Nat) :
    List (Nat × String × Nat) :=
  satnos.flatMap (fun s => levels.flatMap (fun l => waves.map (fun w => (s, l, w))))

/-- Concatenation of a list of per-combination outcomes. -/
def SearchResult.concat : List SearchResult → SearchResult
  | [] => emptyResult
  | r :: rs => r.append (SearchResult.concat rs)

theorem SearchResult.append_empty_left (r : SearchResult) :
    emptyResult.append r = r := by
  cases r; simp [SearchResult.append, emptyResult]

theorem SearchResult.append_empty_right (r : SearchResult) :
    r.append emptyResult = r := by
  cases r; simp [SearchResult.append, emptyResult]

theorem SearchResult.append_assoc (r s t : SearchResult) :
    (r.append s).append t = r.append (s.append t) := by
  cases r; cases s; cases t; simp [SearchResult.append]

theorem SearchResult.concat_append (rs ss : List SearchResult) :
    SearchResult.concat (rs ++ ss)
      = (SearchResult.concat rs).append (SearchResult.concat ss) := by
  induction rs with
  | nil => simp [SearchResult.concat, SearchResult.append_empty_left]
  | cons r rs ih => simp [SearchResult.concat, ih, SearchResult.append_assoc]

theorem SearchResult.concat_map_flatMap {α β : Type} (f : α → List β)
    (g : β → SearchResult) (xs : List α) :
    SearchResult.concat ((xs.flatMap f).map g)
      = SearchResult.concat (xs.map (fun x => SearchResult.concat ((f x).map g))) := by
  induction xs with
  | nil => rfl
  | cons x xs ih =>
      simp only [List.flatMap_cons, List.map_append, List.map_cons,
        SearchResult.concat_append, SearchResult.concat, ih]

theorem SearchResult.concat_map_const {α : Type} (xs : List α) :
    SearchResult.concat (xs.map (fun _ => emptyResult)) = emptyResult := by
  induction xs with
  | nil => rfl
  | cons x xs ih =>
      simp only [List.map_cons, SearchResult.concat, ih,
        SearchResult.append_empty_right]

theorem comboStep_supported (md : MatchDict)
    (scrape : DateTime × DateTime → String → Pattern → ScrapeResult)
    (satno wave : Nat) {level : String} (h : level = "1b" ∨ level = "2") :
    comboStep md scrape satno level wave
      = .ok (comboResult md scrape (satno, level, wave)) := by
  rcases h with h | h <;> subst h <;> rfl

theorem comboStep_unsupported (md : MatchDict)
    (scrape : DateTime × DateTime → String → Pattern → ScrapeResult)
    (satno wave : Nat) {level : String} (h1 : level ≠ "1b") (h2 : level ≠ "2") :
    comboStep md scrape satno level wave
      = .error ("Level " ++ level ++ " is not supported.") := by
  simp [comboStep, selectBranch, h1, h2]

theorem foldCombos_ok {α : Type} (f : α → Except String SearchResult)
    (g : α → SearchResult) (xs : List α) (h : ∀ x ∈ xs, f x = .ok (g x)) :
    foldCombos f xs = .ok (SearchResult.concat (xs.map g)) := by
  induction xs with
  | nil => rfl
  | cons x xs ih =>
      have hx := h x (List.mem_cons_self x xs)
      have hrest := ih (fun y hy => h y (List.mem_cons_of_mem x hy))
      simp only [foldCombos, hx, hrest, List.map_cons, SearchResult.concat]
      rfl

theorem foldCombos_error {α : Type} (f : α → Except String SearchResult)
    (xs : List α) (x : α) (hx : x ∈ xs) (h : ∃ e, f x = .error e) :
    ∃ e, foldCombos f xs = .error e := by
  induction xs with
  | nil => cases hx
  | cons y ys ih =>
      rcases List.mem_cons.mp hx with rfl | hx2
      · obtain ⟨e, he⟩ := h
        exact ⟨e, by rw [foldCombos, he]; rfl⟩
      · cases hfy : f y with
        | error d => exact ⟨d, by rw [foldCombos, hfy]; rfl⟩
        | ok r =>
            obtain ⟨e, he⟩ := ih hx2
            refine ⟨e, ?_⟩
            rw [foldCombos, hfy]
            show (foldCombos f ys).bind _ = _
            rw [he]
            rfl

theorem searchCore_ok (md : MatchDict)
    (scrape : DateTime × DateTime → String → Pattern → ScrapeResult)
    (satnos : List Nat) (levels : List String) (waves : List Nat)
    (h : ∀ l ∈ levels, l = "1b" ∨ l = "2") :
    searchCore md scrape satnos levels waves
      = .ok (SearchResult.concat
          ((combos satnos levels waves).map (comboResult md scrape))) := by
  have hw : ∀ (s : Nat) (l : String), l = "1b" ∨ l = "2" →
      foldCombos (fun wave => comboStep md scrape s l wave) waves
        = .ok (SearchResult.concat
            (waves.map (fun w => comboResult md scrape (s, l, w)))) := by
    intro s l hl
    exact foldCombos_ok _ _ _ (fun w _ => comboStep_supported md scrape s w hl)
  have hlv : ∀ s : Nat,
      foldCombos (fun level =>
          foldCombos (fun wave => comboStep md scrape s level wave) waves) levels
        = .ok (SearchResult.concat (levels.map (fun l =>
            SearchResult.concat
              (waves.map (fun w => comboResult md scrape (s, l, w)))))) :=
    fun s => foldCombos_ok _ _ _ (fun l hl => hw s l (h l hl))
  have hs := foldCombos_ok _
    (fun s => SearchResult.concat (levels.map (fun l =>
        SearchResult.concat (waves.map (fun w => comboResult md scrape (s, l, w))))))
    satnos (fun s _ => hlv s)
  rw [searchCore, hs]
  congr 1
  rw [combos, SearchResult.concat_map_flatMap]
  refine congrArg _ (List.map_congr_left ?_)
  intro s _
  rw [SearchResult.concat_map_flatMap]
  refine congrArg _ (List.map_congr_left ?_)
  intro l _
  rw [List.map_map]
  rfl

/-- The constant metadata of `SUVIClient` (first registered value of each
attribute) together with the default axis enumerations. -/
def mdSUVI : MatchDict :=
  { Instrument := "SUVI", Physobs := "flux", Source := "GOES", Provider := "NOAA",
    SatelliteNumber := [16, 17], Level := ["1b", "2"], Wavelength := none,
    Time := (⟨2019, 1, 1, 0, 0, 0⟩, ⟨2019, 1, 2, 0, 0, 0⟩) }

/-- A scrape capability whose every listing is empty. -/
def scrape0 : DateTime × DateTime → String → Pattern → ScrapeResult :=
  fun _ _ _ => ⟨[], []⟩

/-- A level-2 raw match whose start and end fall on the same day. -/
def sampleMatch : RawMatch :=
  { SatelliteNumber := 16, Level := "2", Wavelength := 195,
    year := 2019, month := 1, day := 1, hour := 0, minute := 0, second := 0,
    ehour := 0, eminute := 4, esecond := 0,
    eyear := some 2019, emonth := some 1, eday := some 1 }

/-- A level-2 raw match crossing midnight: the filename encodes start
2019-01-01T23:58:00 and end 2019-01-02T00:02:00. -/
def midnightMatch : RawMatch :=
  { SatelliteNumber := 16, Level := "2", Wavelength := 171,
    year := 2019, month := 1, day := 1, hour := 23, minute := 58, second := 0,
    ehour := 0, eminute := 2, esecond := 0,
    eyear := some 2019, emonth := some 1, eday := some 2 }

/-- C1: the claim says that for level-2 matches, whose grammar exposes a
full end date (eyear, emonth, eday), the record's end timestamp is built
from those end-date fields, equalling the instant encoded in the filename
even when the end date differs from the start date. The code instead
reuses the start date for the end instant: on a level-2 match crossing
midnight it produces an end of 2019-01-01T00:02:00 (which precedes the
start) where the filename encodes 2019-01-02T00:02:00. -/
theorem c1_end_date_ignored :
    endOf midnightMatch = ⟨2019, 1, 1, 0, 2, 0⟩
    ∧ specEndInstant midnightMatch = ⟨2019, 1, 2, 0, 2, 0⟩
    ∧ endOf midnightMatch ≠ specEndInstant midnightMatch
    ∧ (post_search_hook midnightMatch mdSUVI).filter (fun p => p.1 == "End Time")
        = [("End Time", FieldValue.time ⟨2019, 1, 1, 0, 2, 0⟩)] :=
  ⟨rfl, rfl, by decide, rfl⟩

/-- C4 counterexample: the physical-observable field of the produced record
is not named consistently with the registered `Physobs` attribute; the map
key is the misspelled `Phsyobs`. -/
theorem c4_physobs_key_counterexample :
    "Physobs" ∉ (post_search_hook sampleMatch mdSUVI).map Prod.fst
    ∧ "Phsyobs" ∈ (post_search_hook sampleMatch mdSUVI).map Prod.fst := by
  decide

/-- C4 (amended): every record has exactly the fixed ordered field set
Time, Start Time, End Time, Instrument, Phsyobs (the misspelled
physical-observable key), Source, Provider, SatelliteNumber, Level,
Wavelength, and the instrument, physical-observable, source and provider
values are the per-client constants from the query, not parsed fields. -/
theorem c4_record_fields : ∀ (i : RawMatch) (md : MatchDict),
    (post_search_hook i md).map Prod.fst
      = ["Time", "Start Time", "End Time", "Instrument", "Phsyobs", "Source",
         "Provider", "SatelliteNumber", "Level", "Wavelength"]
    ∧ ("Instrument", FieldValue.str md.Instrument) ∈ post_search_hook i md
    ∧ ("Phsyobs", FieldValue.str md.Physobs) ∈ post_search_hook i md
    ∧ ("Source", FieldValue.str md.Source) ∈ post_search_hook i md
    ∧ ("Provider", FieldValue.str md.Provider) ∈ post_search_hook i md := by
  intro i md
  refine ⟨rfl, ?_, ?_, ?_, ?_⟩ <;> simp [post_search_hook]

/-- C5: for level 1b the branch selector substitutes satellite number,
wavelength and an element code that is `he` exactly at 304 angstrom and
`fe` at every other wavelength; for level 2 only satellite number and
wavelength are substituted (no element code in the formdict). -/
theorem c5_branch_substitution : ∀ satno wave : Nat,
    selectBranch "1b" satno wave
      = some (baseurl1b_bound satno wave (elemCode wave), .p1b)
    ∧ selectBranch "2" satno wave = some (baseurl2_bound satno wave, .p2)
    ∧ formdictFor "1b" satno wave = some ⟨wave, satno, some (elemCode wave)⟩
    ∧ formdictFor "2" satno wave = some ⟨wave, satno, none⟩
    ∧ (elemCode wave = "he" ↔ wave = 304)
    ∧ (wave ≠ 304 → elemCode wave = "fe") := by
  intro satno wave
  refine ⟨rfl, by simp [selectBranch], rfl, by simp [formdictFor], ?_, ?_⟩
  · unfold elemCode
    by_cases h : wave = 304 <;> simp [h]
  · intro h
    simp [elemCode, h]

/-- Witness for C5 at concrete wavelengths 304 and 171. -/
theorem c5_branch_substitution_witness : elemCode 304 = "he" ∧ elemCode 171 = "fe" :=
  ⟨(c5_branch_substitution 16 304).2.2.2.2.1.mpr rfl,
   (c5_branch_substitution 16 171).2.2.2.2.2 (by decide)⟩

/-- C9: in every produced record the Wavelength field is a physical
quantity carrying the angstrom unit applied to the parsed integer, never a
bare number. -/
theorem c9_wavelength_has_unit : ∀ (i : RawMatch) (md : MatchDict),
    (post_search_hook i md).filter (fun p => p.1 == "Wavelength")
      = [("Wavelength", FieldValue.quantity i.Wavelength WUnit.angstrom)] := by
  intro i md
  rfl

/-- A query whose level selection holds only the unsupported value 3 and
whose wavelength range, 100 to 120 angstrom, contains no supported
wavelength. -/
def mdLevel3 : MatchDict :=
  { Instrument := "SUVI", Physobs := "flux", Source := "GOES", Provider := "NOAA",
    SatelliteNumber := [16], Level := ["3"],
    Wavelength := some (⟨100, .angstrom⟩, ⟨120, .angstrom⟩),
    Time := (⟨2019, 1, 1, 0, 0, 0⟩, ⟨2019, 1, 2, 0, 0, 0⟩) }

theorem mdLevel3_waves : resolvedWaves mdLevel3.Wavelength = [] := by
  norm_num [mdLevel3, resolvedWaves, supported_waves, inReqRange,
    Quantity.toAngstrom, WUnit.factor, List.filter]

/-- C2 counterexample: a query whose level selection contains only the
unsupported value 3 but whose wavelength range admits no supported
wavelength returns successfully with zero records instead of failing: the
unsupported-level check sits inside the innermost wavelength loop, whose
body never runs. -/
theorem c2_unsupported_level_counterexample :
    search mdLevel3 scrape0 = .ok emptyResult := by
  simp only [search, mdLevel3_waves]
  rfl

/-- C2 (amended): provided the satellite enumeration and the resolved
wavelength list are non-empty (always true for the default enumerations),
a query whose level selection contains a value other than 1b and 2 makes
`search` raise, returning an error and no partial results. -/
theorem c2_unsupported_level_fails :
    ∀ (md : MatchDict) (scrape : DateTime × DateTime → String → Pattern → ScrapeResult),
      (∃ l ∈ md.Level, l ≠ "1b" ∧ l ≠ "2") →
      md.SatelliteNumber ≠ [] →
      resolvedWaves md.Wavelength ≠ [] →
      ∃ e, search md scrape = .error e := by
  intro md scrape hex hsat hwav
  obtain ⟨l, hl, hne1, hne2⟩ := hex
  obtain ⟨s, satnos, hs⟩ := List.exists_cons_of_ne_nil hsat
  obtain ⟨w, waves, hwv⟩ := List.exists_cons_of_ne_nil hwav
  unfold search searchCore
  apply foldCombos_error _ _ s (by rw [hs]; exact List.mem_cons_self s satnos)
  apply foldCombos_error _ _ l hl
  apply foldCombos_error _ _ w (by rw [hwv]; exact List.mem_cons_self w waves)
  exact ⟨_, comboStep_unsupported md scrape s w hne1 hne2⟩

/-- The default query with one unsupported level value. -/
def mdLevel3Default : MatchDict :=
  { mdSUVI with Level := ["3"] }

/-- Witness for C2 amended: the default axis enumerations with level 3. -/
theorem c2_unsupported_level_witness :
    ∃ e, search mdLevel3Default scrape0 = .error e :=
  c2_unsupported_level_fails mdLevel3Default scrape0
    ⟨"3", by decide, by decide, by decide⟩ (by decide) (by decide)

/-- C3: without a wavelength constraint the fan-out enumerates exactly the
six supported wavelengths, and the query behaves identically to the same
query whose wavelength range spans all six supported wavelengths. -/
theorem c3_wavelength_default :
    resolvedWaves none = [94, 131, 171, 195, 284, 304]
    ∧ ∀ (md : MatchDict) (scrape : DateTime × DateTime → String → Pattern → ScrapeResult),
        md.Wavelength = none →
        search md scrape
          = search { md with
              Wavelength := some (⟨94, .angstrom⟩, ⟨304, .angstrom⟩) } scrape := by
  refine ⟨rfl, ?_⟩
  intro md scrape h
  have hw : resolvedWaves (some (⟨94, .angstrom⟩, ⟨304, .angstrom⟩))
      = resolvedWaves none := by
    norm_num [resolvedWaves, supported_waves, inReqRange, Quantity.toAngstrom,
      WUnit.factor, List.filter]
  cases md with
  | mk I P S Pr sn lv wv t =>
      simp only at h
      subst h
      unfold search
      simp only []
      rw [hw]
      rfl

/-- Witness for C3 at the default SUVI query. -/
theorem c3_wavelength_default_witness :
    search mdSUVI scrape0
      = search { mdSUVI with
          Wavelength := some (⟨94, .angstrom⟩, ⟨304, .angstrom⟩) } scrape0 :=
  c3_wavelength_default.2 mdSUVI scrape0 rfl

/-- C10: when the requested wavelength range contains none of the six
supported wavelengths, `search` returns an empty result without error and
without invoking the scraper at all, whatever the satellite and level
enumerations hold. -/
theorem c10_empty_wavelength_noop :
    ∀ (md : MatchDict) (scrape : DateTime × DateTime → String → Pattern → ScrapeResult)
      (q1 q2 : Quantity),
      md.Wavelength = some (q1, q2) →
      (∀ w ∈ supported_waves,
          ¬(q1.toAngstrom ≤ (w : ℚ) ∧ (w : ℚ) ≤ q2.toAngstrom)) →
      search md scrape = .ok emptyResult := by
  intro md scrape q1 q2 hw hmiss
  have hres : resolvedWaves md.Wavelength = [] := by
    rw [hw]
    refine List.filter_eq_nil_iff.mpr ?_
    intro w hwmem
    have hm := hmiss w hwmem
    simp only [inReqRange, Bool.and_eq_true, decide_eq_true_eq, not_and]
    exact fun h1 h2 => hm ⟨h1, h2⟩
  unfold search
  rw [hres]
  have hinner : ∀ s : Nat,
      foldCombos (fun level =>
          foldCombos (fun wave => comboStep md scrape s level wave)
            ([] : List Nat)) md.Level
        = .ok emptyResult := by
    intro s
    rw [foldCombos_ok
        (fun level => foldCombos
          (fun wave => comboStep md scrape s level wave) ([] : List Nat))
        (fun _ => emptyResult) md.Level (fun l _ => rfl),
      SearchResult.concat_map_const]
  rw [searchCore,
    foldCombos_ok
      (fun s => foldCombos (fun level => foldCombos
        (fun wave => comboStep md scrape s level wave) ([] : List Nat)) md.Level)
      (fun _ => emptyResult) md.SatelliteNumber (fun s _ => hinner s),
    SearchResult.concat_map_const]

/-- The default query restricted to the wavelength range 100 to 120
angstrom, which contains no supported wavelength. -/
def mdOutOfRange : MatchDict :=
  { mdSUVI with Wavelength := some (⟨100, .angstrom⟩, ⟨120, .angstrom⟩) }

/-- Witness for C10 at the wavelength range 100 to 120 angstrom. -/
theorem c10_empty_wavelength_noop_witness :
    search mdOutOfRange scrape0 = .ok emptyResult :=
  c10_empty_wavelength_noop mdOutOfRange scrape0 _ _ rfl
    (by norm_num [supported_waves, Quantity.toAngstrom, WUnit.factor])

theorem SearchResult.concat_records (rs : List SearchResult) :
    (SearchResult.concat rs).records = rs.flatMap SearchResult.records := by
  induction rs with
  | nil => rfl
  | cons r rs ih => simp [SearchResult.concat, SearchResult.append, ih, emptyResult]

/-- The fan-out scenario query: satellites 13 and 15, level 2, wavelength
range spanning exactly the supported wavelengths 195 and 284, over a
single-day span. -/
def md6 : MatchDict :=
  { Instrument := "SUVI", Physobs := "flux", Source := "GOES", Provider := "NOAA",
    SatelliteNumber := [13, 15], Level := ["2"],
    Wavelength := some (⟨195, .angstrom⟩, ⟨284, .angstrom⟩),
    Time := (⟨2019, 1, 1, 0, 0, 0⟩, ⟨2019, 1, 2, 0, 0, 0⟩) }

/-- A mock listing with exactly one matching entry per scraped combination. -/
def scrape6 : DateTime × DateTime → String → Pattern → ScrapeResult :=
  fun _ _ _ => ⟨[sampleMatch], []⟩

theorem md6_waves : resolvedWaves md6.Wavelength = [195, 284] := by
  norm_num [md6, resolvedWaves, supported_waves, inReqRange,
    Quantity.toAngstrom, WUnit.factor, List.filter]

/-- C6: for every query with supported levels, `search` invokes the branch
selector and scraper exactly once per element of the Cartesian product of
satellite numbers, levels and resolved wavelengths, in loop order,
flattening all per-combination results into one list; the concrete
fan-out scenario - satellites 13 and 15, level 2, wavelengths 195 and
284, one matching entry per combination - yields exactly 4 records. -/
theorem c6_cartesian_fanout :
    (∀ (md : MatchDict) (scrape : DateTime × DateTime → String → Pattern → ScrapeResult),
        (∀ l ∈ md.Level, l = "1b" ∨ l = "2") →
        search md scrape
          = .ok (SearchResult.concat
              ((combos md.SatelliteNumber md.Level (resolvedWaves md.Wavelength)).map
                (comboResult md scrape))))
    ∧ (∀ (md : MatchDict) (scrape : DateTime × DateTime → String → Pattern → ScrapeResult),
        (∀ l ∈ md.Level, l = "1b" ∨ l = "2") →
        Except.map SearchResult.records (search md scrape)
          = .ok ((combos md.SatelliteNumber md.Level (resolvedWaves md.Wavelength)).flatMap
              (fun c => (comboResult md scrape c).records)))
    ∧ Except.map (fun r => r.records.length) (search md6 scrape6) = .ok 4
    ∧ Except.map SearchResult.invoked (search md6 scrape6)
        = .ok [boundUrl "2" 13 195, boundUrl "2" 13 284,
               boundUrl "2" 15 195, boundUrl "2" 15 284] := by
  refine ⟨?_, ?_, ?_, ?_⟩
  · intro md scrape h
    exact searchCore_ok md scrape _ _ _ h
  · intro md scrape h
    rw [show search md scrape = _ from searchCore_ok md scrape _ _ _ h]
    simp only [Except.map, SearchResult.concat_records]
    rw [List.flatMap_map]
  · simp only [search, md6_waves]
    rfl
  · simp only [search, md6_waves]
    rfl

/-- Witness for C6 at the fan-out scenario query. -/
theorem c6_cartesian_fanout_witness :
    search md6 scrape6
      = .ok (SearchResult.concat
          ((combos md6.SatelliteNumber md6.Level (resolvedWaves md6.Wavelength)).map
            (comboResult md6 scrape6))) :=
  c6_cartesian_fanout.1 md6 scrape6 (by decide)

/-- C7: the set of wavelengths actually searched is exactly the set of
supported discrete wavelengths inside the requested inclusive range after
both endpoints are converted to angstrom, so a range expressed in another
unit selects the same supported wavelengths as the equivalent angstrom
range; in particular the range 9.4 to 30.4 nanometer selects all six. -/
theorem c7_unit_aware_selection : ∀ q1 q2 : Quantity,
    resolvedWaves (some (q1, q2))
      = supported_waves.filter (inReqRange q1.toAngstrom q2.toAngstrom)
    ∧ (∀ w : Nat, inReqRange q1.toAngstrom q2.toAngstrom w = true ↔
        (q1.toAngstrom ≤ (w : ℚ) ∧ (w : ℚ) ≤ q2.toAngstrom))
    ∧ resolvedWaves (some (q1, q2))
        = resolvedWaves (some (⟨q1.toAngstrom, .angstrom⟩, ⟨q2.toAngstrom, .angstrom⟩))
    ∧ resolvedWaves (some (⟨(94 : ℚ) / 10, .nanometer⟩, ⟨(304 : ℚ) / 10, .nanometer⟩))
        = supported_waves := by
  intro q1 q2
  refine ⟨rfl, ?_, ?_, ?_⟩
  · intro w
    simp [inReqRange]
  · simp [resolvedWaves, Quantity.toAngstrom, WUnit.factor, mul_one]
  · norm_num [resolvedWaves, supported_waves, inReqRange, Quantity.toAngstrom,
      WUnit.factor, List.filter]

/-- Witness for C7: the nanometer range equivalent to 94 to 304 angstrom
selects all six supported wavelengths. -/
theorem c7_unit_aware_selection_witness :
    resolvedWaves (some (⟨(94 : ℚ) / 10, .nanometer⟩, ⟨(304 : ℚ) / 10, .nanometer⟩))
      = supported_waves :=
  (c7_unit_aware_selection ⟨1, .angstrom⟩ ⟨1, .angstrom⟩).2.2.2

/-- C8: when one calendar unit fails to list, the remaining units are still
scraped and their matches returned, the failed units are reported
alongside, and total failure (every unit failed) is distinguishable from a
zero-match success (no unit failed, no entry matched). -/
theorem c8_partial_listing_failure :
    ∀ (units : List CalUnit) (listUnit : CalUnit → Option (List String))
      (parse : String → Option RawMatch),
      (extract_files_meta units listUnit parse).filesmeta
          = units.flatMap (fun u => ((listUnit u).getD []).filterMap parse)
      ∧ (extract_files_meta units listUnit parse).failedUnits
          = units.filter (fun u => (listUnit u).isNone)
      ∧ ((extract_files_meta units listUnit parse).failedUnits = units
            ↔ ∀ u ∈ units, listUnit u = none)
      ∧ (units ≠ [] → (∀ u ∈ units, listUnit u = none) →
            (extract_files_meta units listUnit parse).failedUnits ≠ []) := by
  intro units listUnit parse
  have hm : ∀ vs : List CalUnit, (extract_files_meta vs listUnit parse).filesmeta
      = vs.flatMap (fun u => ((listUnit u).getD []).filterMap parse) := by
    intro vs
    induction vs with
    | nil => rfl
    | cons u us ih =>
        cases h : listUnit u <;>
          simp [extract_files_meta, h, ih]
  have hf : ∀ vs : List CalUnit, (extract_files_meta vs listUnit parse).failedUnits
      = vs.filter (fun u => (listUnit u).isNone) := by
    intro vs
    induction vs with
    | nil => rfl
    | cons u us ih =>
        cases h : listUnit u <;>
          simp [extract_files_meta, h, ih]
  have h3 : (extract_files_meta units listUnit parse).failedUnits = units
      ↔ ∀ u ∈ units, listUnit u = none := by
    rw [hf units, List.filter_eq_self]
    simp [Option.isNone_iff_eq_none]
  refine ⟨hm units, hf units, h3, ?_⟩
  intro hne hall h0
  apply hne
  have h4 := h3.mpr hall
  rw [h0] at h4
  exact h4.symm

/-- A five-day span. -/
def unitsFive : List CalUnit :=
  [(2019, 1, 1), (2019, 1, 2), (2019, 1, 3), (2019, 1, 4), (2019, 1, 5)]

/-- A listing capability failing on the second and fourth day and returning
one entry for each other day. -/
def listTwoFail : CalUnit → Option (List String) :=
  fun u => if u.2.2 = 2 ∨ u.2.2 = 4 then none else some ["entry"]

/-- A listing capability failing on every unit. -/
def listAllFail : CalUnit → Option (List String) := fun _ => none

/-- A grammar matcher accepting every entry. -/
def parseAll : String → Option RawMatch := fun _ => some sampleMatch

/-- Witness for C8: with 2 of 5 days failing, the 3 successful days'
matches are returned together with the 2 failed units; with every day
failing, the failed-unit set is non-empty, distinguishing total failure
from zero-match success. -/
theorem c8_partial_listing_failure_witness :
    (extract_files_meta unitsFive listTwoFail parseAll).filesmeta.length = 3
    ∧ (extract_files_meta unitsFive listTwoFail parseAll).failedUnits
        = [(2019, 1, 2), (2019, 1, 4)]
    ∧ (extract_files_meta unitsFive listAllFail parseAll).failedUnits ≠ []
    ∧ (extract_files_meta unitsFive listTwoFail parseAll).failedUnits ≠ unitsFive :=
  ⟨by decide, by decide,
   (c8_partial_listing_failure unitsFive listAllFail parseAll).2.2.2
     (by decide) (fun u _ => rfl),
   by decide⟩

end SUVI
